import Mathlib

/-!
Verification development for the RD_Station deal-export scripts.

The repository contains three close variants of one Python program
(`exporta_oportunidades_rdstation.py` is the primary one; the file of
unknown name holds two further variants).  Each program fetches "deal"
records from a CRM REST API day by day and page by page, with bounded
retry, and writes every non-empty page as an indented UTF-8 JSON file.

This file is a shallow embedding of that code:
* Python JSON values are the inductive `Json`;
* Python exceptions are values of `PyExn`; fallible operations return
  `Except PyExn _` (a raised exception is an `Except.error`);
* the HTTP layer is abstracted as an oracle `Nat → AttemptOutcome`
  giving the outcome of each attempt of `requests.get` / decoding;
* the filesystem is an association list from paths to file contents;
* `sleep` is recorded in a trace rather than performed.

Note on exception classes: with the `requests` library (≥ 2.27),
`response.json()` on an undecodable body raises
`requests.exceptions.JSONDecodeError`, which is a subclass of
`requests.exceptions.RequestException`, hence caught by the scripts'
`except requests.exceptions.RequestException` clause.
-/

/-- Python exception values, classified by the classes the scripts test. -/
inductive PyExn
  | requestException (msg : String)
  | attributeError (msg : String)
  | typeError (msg : String)
deriving DecidableEq, Repr

/-- Whether an exception is caught by `except requests.exceptions.RequestException`. -/
def PyExn.isRequestException : PyExn → Bool
  | .requestException _ => true
  | _ => false

/-- Decoded JSON values (Python objects produced by `response.json()`).
Numbers are restricted to integers, which is all these claims need. -/
inductive Json
  | jnull
  | jbool (b : Bool)
  | jnum (n : Int)
  | jstr (s : String)
  | jarr (xs : List Json)
  | jobj (fields : List (String × Json))

/-- Python truthiness (`if not data:`) of a decoded JSON value. -/
def pyTruthy : Json → Bool
  | .jnull => false
  | .jbool b => b
  | .jnum n => decide (n ≠ 0)
  | .jstr s => !s.isEmpty
  | .jarr xs => !xs.isEmpty
  | .jobj fs => !fs.isEmpty

/-- First binding of a key in an association list (Python dict lookup). -/
def assocFind (key : String) : List (String × Json) → Option Json
  | [] => none
  | (k, v) :: rest => if k = key then some v else assocFind key rest

/-- Python `data.get(key, default)`: defined on dicts; on any other value
the attribute access `.get` raises `AttributeError`. -/
def pyDictGet (data : Json) (key : String) (default : Json) : Except PyExn Json :=
  match data with
  | .jobj fs => .ok ((assocFind key fs).getD default)
  | _ => .error (.attributeError "object has no attribute get")

/-- Python `len(...)`: defined on sequences and dicts, `TypeError` otherwise. -/
def pyLen : Json → Except PyExn Nat
  | .jstr s => .ok s.length
  | .jarr xs => .ok xs.length
  | .jobj fs => .ok fs.length
  | _ => .error (.typeError "object has no len")

/-- `APIConfig` dataclass: base URL, token, page size, retry count, retry delay
(`exporta_oportunidades_rdstation.py`, lines 10-16). -/
structure APIConfig where
  base_url : String
  token : String
  per_page : Nat := 200
  retry_attempts : Nat := 3
  retry_delay : Nat := 5
deriving DecidableEq, Repr

/-- Outcome of one iteration of the retry loop's `try` block:
`requests.get` may raise (transport error), `raise_for_status` may raise
(non-2xx), `response.json()` may raise (2xx with undecodable body),
or a decoded body is obtained. -/
inductive AttemptOutcome
  | transportError
  | httpError
  | okUndecodable
  | ok (body : Json)

/-- The value / exception produced by the `try` block for a given outcome.
All three failure modes raise subclasses of `RequestException`
(see the module comment for `response.json()`). -/
def attemptResult : AttemptOutcome → Except PyExn Json
  | .transportError => .error (.requestException "connection error")
  | .httpError => .error (.requestException "http status error")
  | .okUndecodable => .error (.requestException "json decode error")
  | .ok body => .ok body

/-- Observable trace of one `fetch_deals` call: its result (an escaping
exception, or the Python return value `Optional[Dict]`), the number of
HTTP calls made, the list of performed sleep durations in order, and the
configuration object as it stands when the call returns. -/
structure FetchTrace where
  result : Except PyExn (Option Json)
  calls : Nat
  sleeps : List Nat
  cfgOut : APIConfig

/-- The retry loop of `RDStationClient.fetch_deals`
(`exporta_oportunidades_rdstation.py`, lines 48-66), one step per
remaining iteration of `for attempt in range(retry_attempts)`.
`attempt` is the current loop index; `remaining` is how many iterations
of the range are left (falling off the loop returns Python `None`). -/
def fetchGo (cfg : APIConfig) (outcomes : Nat → AttemptOutcome) :
    Nat → Nat → FetchTrace
  | _attempt, 0 => ⟨.ok none, 0, [], cfg⟩
  | attempt, remaining + 1 =>
    match attemptResult (outcomes attempt) with
    | .ok body => ⟨.ok (some body), 1, [], cfg⟩
    | .error e =>
      if e.isRequestException then
        if attempt < cfg.retry_attempts - 1 then
          let t := fetchGo cfg outcomes (attempt + 1) remaining
          ⟨t.result, t.calls + 1, cfg.retry_delay :: t.sleeps, t.cfgOut⟩
        else
          ⟨.ok none, 1, [], cfg⟩
      else
        ⟨.error e, 1, [], cfg⟩

/-- `RDStationClient.fetch_deals` for a fixed `(date, page)`, with the HTTP
outcome of each attempt supplied by the oracle `outcomes`. -/
def fetch_deals (cfg : APIConfig) (outcomes : Nat → AttemptOutcome) : FetchTrace :=
  fetchGo cfg outcomes 0 cfg.retry_attempts

/-- If every attempt raises a `RequestException`, the remaining loop performs
one call per remaining iteration, sleeps `retry_delay` between consecutive
attempts only, and returns `None` (helper, invariant
`attempt + remaining = retry_attempts`). -/
theorem fetchGo_allFail (cfg : APIConfig) (outcomes : Nat → AttemptOutcome)
    (hfail : ∀ i, outcomes i = .transportError ∨ outcomes i = .httpError) :
    ∀ remaining attempt, attempt + remaining = cfg.retry_attempts →
      fetchGo cfg outcomes attempt remaining =
        ⟨.ok none, remaining, List.replicate (remaining - 1) cfg.retry_delay, cfg⟩ := by
  intro remaining
  induction remaining with
  | zero => intro attempt _; rfl
  | succ r ih =>
    intro attempt h
    obtain ⟨m, hm⟩ : ∃ m, attemptResult (outcomes attempt) = .error (.requestException m) := by
      rcases hfail attempt with ho | ho <;> rw [ho] <;> exact ⟨_, rfl⟩
    cases r with
    | zero =>
      have hnlt : ¬ attempt < cfg.retry_attempts - 1 := by omega
      rw [fetchGo, hm]
      simp only [PyExn.isRequestException, if_true, if_neg hnlt]
      rfl
    | succ s =>
      have hlt : attempt < cfg.retry_attempts - 1 := by omega
      rw [fetchGo, hm]
      simp only [PyExn.isRequestException, if_true, if_pos hlt,
        ih (attempt + 1) (by omega)]
      simp [List.replicate_succ]

/-- C3: if every HTTP attempt fails with a transport error or a non-2xx
status, `fetch_deals` performs exactly `retry_attempts` HTTP calls, sleeps
`retry_delay` seconds exactly `retry_attempts - 1` times (between attempts,
never after the final one), and returns the failure sentinel `None`. -/
theorem fetch_deals_retry_exhaustion (cfg : APIConfig) (outcomes : Nat → AttemptOutcome)
    (hfail : ∀ i, outcomes i = .transportError ∨ outcomes i = .httpError)
    (_hpos : 1 ≤ cfg.retry_attempts) :
    (fetch_deals cfg outcomes).result = .ok none ∧
    (fetch_deals cfg outcomes).calls = cfg.retry_attempts ∧
    (fetch_deals cfg outcomes).sleeps =
      List.replicate (cfg.retry_attempts - 1) cfg.retry_delay := by
  have h := fetchGo_allFail cfg outcomes hfail cfg.retry_attempts 0 (by omega)
  rw [fetch_deals, h]
  exact ⟨rfl, rfl, rfl⟩

/-- Witness for C3 at the default configuration (3 attempts, 5 s delay)
and an oracle that fails transport on every attempt. -/
theorem fetch_deals_retry_exhaustion_witness :
    let cfg : APIConfig := ⟨"https://crm.rdstation.com/api/v1/deals", "t", 200, 3, 5⟩
    (fetch_deals cfg (fun _ => .transportError)).result = .ok none ∧
    (fetch_deals cfg (fun _ => .transportError)).calls = 3 ∧
    (fetch_deals cfg (fun _ => .transportError)).sleeps = [5, 5] := by
  have h := fetch_deals_retry_exhaustion
    ⟨"https://crm.rdstation.com/api/v1/deals", "t", 200, 3, 5⟩
    (fun _ => .transportError) (fun _ => Or.inl rfl) (by decide)
  exact ⟨h.1, h.2.1, h.2.2⟩

/-- Helper for C7: whatever the attempt outcomes, the retry loop never
lets an exception escape: its result is always `Except.ok`. -/
theorem fetchGo_no_escape (cfg : APIConfig) (outcomes : Nat → AttemptOutcome) :
    ∀ remaining attempt, ∃ r, (fetchGo cfg outcomes attempt remaining).result = .ok r := by
  intro remaining
  induction remaining with
  | zero => intro attempt; exact ⟨none, rfl⟩
  | succ r ih =>
    intro attempt
    rw [fetchGo]
    cases houtcome : outcomes attempt with
    | ok body => exact ⟨some body, rfl⟩
    | transportError | httpError | okUndecodable =>
      simp only [attemptResult, PyExn.isRequestException, if_true]
      by_cases hlt : attempt < cfg.retry_attempts - 1
      · rw [if_pos hlt]; exact ih (attempt + 1)
      · rw [if_neg hlt]; exact ⟨none, rfl⟩

/-- Helper for C7: an attempt whose 2xx body is undecodable produces the
same fetch trace as a plain transport error on that attempt. -/
theorem fetchGo_undecodable_as_transport (cfg : APIConfig) :
    ∀ remaining attempt,
      fetchGo cfg (fun _ => .okUndecodable) attempt remaining =
      fetchGo cfg (fun _ => .transportError) attempt remaining := by
  intro remaining
  induction remaining with
  | zero => intro attempt; rfl
  | succ r ih =>
    intro attempt
    rw [fetchGo, fetchGo]
    simp only [attemptResult, PyExn.isRequestException, if_true]
    by_cases hlt : attempt < cfg.retry_attempts - 1
    · rw [if_pos hlt, if_pos hlt, ih (attempt + 1)]
    · rw [if_neg hlt, if_neg hlt]

/-- C7: `fetch_deals` never raises to its caller: for every oracle of HTTP
outcomes its result is an `Except.ok` value (a decoded page or the `None`
failure sentinel); and an oracle whose every 2xx response has an
undecodable JSON body yields exactly the trace of an oracle failing
transport on every attempt (retried, then the failure sentinel). -/
theorem fetch_deals_no_escape (cfg : APIConfig) (outcomes : Nat → AttemptOutcome) :
    (∃ r : Option Json, (fetch_deals cfg outcomes).result = .ok r) ∧
    fetch_deals cfg (fun _ => .okUndecodable) =
      fetch_deals cfg (fun _ => .transportError) :=
  ⟨fetchGo_no_escape cfg outcomes cfg.retry_attempts 0,
   fetchGo_undecodable_as_transport cfg cfg.retry_attempts 0⟩

/-- A Python `datetime` value, to second precision (microseconds are never
printed by the scripts' `strftime` formats and are irrelevant here). -/
structure DateTime where
  year : Nat
  month : Nat
  day : Nat
  hour : Nat
  minute : Nat
  second : Nat
deriving DecidableEq, Repr

/-- Python `date.replace(hour=h, minute=m, second=s)`. -/
def DateTime.replaceHMS (d : DateTime) (h m s : Nat) : DateTime :=
  { d with hour := h, minute := m, second := s }

/-- Zero-pad the decimal digits of `n` to `width` characters. -/
def padZ (width n : Nat) : String :=
  let s := toString n
  String.mk (List.replicate (width - s.length) '0') ++ s

/-- Python `strftime("%Y-%m-%d")`. -/
def strftimeDate (d : DateTime) : String :=
  padZ 4 d.year ++ "-" ++ padZ 2 d.month ++ "-" ++ padZ 2 d.day

/-- Python `strftime("%Y-%m-%dT%H:%M:%S")`. -/
def strftimeISO8601 (d : DateTime) : String :=
  padZ 4 d.year ++ "-" ++ padZ 2 d.month ++ "-" ++ padZ 2 d.day ++ "T" ++
    padZ 2 d.hour ++ ":" ++ padZ 2 d.minute ++ ":" ++ padZ 2 d.second

/-- The query parameters dictionary built by `fetch_deals`
(`exporta_oportunidades_rdstation.py`, lines 39-46). -/
structure QueryParams where
  token : String
  created_at_period : Bool
  start_date : String
  end_date : String
  page : Nat
  per_page : Nat
deriving DecidableEq, Repr

/-- Parameter construction of `fetch_deals`
(`exporta_oportunidades_rdstation.py`, lines 36-46): the day's bounds are
`date.replace(hour=0, minute=0, second=1)` and
`date.replace(hour=23, minute=59, second=59)`. -/
def fetchParams (cfg : APIConfig) (date : DateTime) (page : Nat) : QueryParams :=
  let start_datetime := date.replaceHMS 0 0 1
  let end_datetime := date.replaceHMS 23 59 59
  { token := cfg.token
    created_at_period := true
    start_date := strftimeISO8601 start_datetime
    end_date := strftimeISO8601 end_datetime
    page := page
    per_page := cfg.per_page }

/-- C8: for every date, the query's `start_date` is that calendar date at
time 00:00:01 and `end_date` is that date at 23:59:59, both rendered as
`YYYY-MM-DDTHH:MM:SS`. -/
theorem fetchParams_day_bounds (cfg : APIConfig) (date : DateTime) (page : Nat) :
    (fetchParams cfg date page).start_date = strftimeDate date ++ "T00:00:01" ∧
    (fetchParams cfg date page).end_date = strftimeDate date ++ "T23:59:59" := by
  constructor <;>
    simp [fetchParams, strftimeISO8601, strftimeDate, DateTime.replaceHMS,
      String.append_assoc] <;> rfl

/-- Lowercase hexadecimal digit. -/
def hexDigit (n : Nat) : String :=
  if n < 10 then toString n
  else if n = 10 then "a" else if n = 11 then "b" else if n = 12 then "c"
  else if n = 13 then "d" else if n = 14 then "e" else "f"

/-- Escaping of one character inside a JSON string as done by Python's
`json.dump` with `ensure_ascii=False`: quote, backslash and control
characters are escaped, everything else (non-ASCII included) is kept. -/
def jsonEscapeChar (c : Char) : String :=
  if c = '"' then "\\\""
  else if c = '\\' then "\\\\"
  else if c = '\n' then "\\n"
  else if c = '\t' then "\\t"
  else if c = '\r' then "\\r"
  else if c = '\x08' then "\\b"
  else if c = '\x0c' then "\\f"
  else if c.toNat < 32 then "\\u00" ++ hexDigit (c.toNat / 16) ++ hexDigit (c.toNat % 16)
  else String.singleton c

/-- A JSON string literal as serialized by `json.dump(..., ensure_ascii=False)`. -/
def jsonQuote (s : String) : String :=
  "\"" ++ String.join (s.toList.map jsonEscapeChar) ++ "\""

/-- Newline followed by the 4-space indentation of nesting level `lvl`
(`json.dump(..., indent=4)`). -/
def nlIndent (lvl : Nat) : String :=
  "\n" ++ String.mk (List.replicate (4 * lvl) ' ')

mutual

/-- `json.dump(data, f, ensure_ascii=False, indent=4)` at nesting level `lvl`
(`exporta_oportunidades_rdstation.py`, line 80). -/
def jsonDumpAux : Json → Nat → String
  | .jnull, _ => "null"
  | .jbool true, _ => "true"
  | .jbool false, _ => "false"
  | .jnum n, _ => toString n
  | .jstr s, _ => jsonQuote s
  | .jarr [], _ => "[]"
  | .jarr (x :: xs), lvl =>
      "[" ++ nlIndent (lvl + 1) ++ jsonDumpAux x (lvl + 1) ++
        jsonDumpItems xs (lvl + 1) ++ nlIndent lvl ++ "]"
  | .jobj [], _ => "\x7b\x7d"
  | .jobj (kv :: fs), lvl =>
      "\x7b" ++ nlIndent (lvl + 1) ++ jsonQuote kv.1 ++ ": " ++
        jsonDumpAux kv.2 (lvl + 1) ++ jsonDumpFields fs (lvl + 1) ++
        nlIndent lvl ++ "\x7d"

/-- Remaining array items, each preceded by the item separator. -/
def jsonDumpItems : List Json → Nat → String
  | [], _ => ""
  | x :: xs, lvl => "," ++ nlIndent lvl ++ jsonDumpAux x lvl ++ jsonDumpItems xs lvl

/-- Remaining object members, each preceded by the item separator. -/
def jsonDumpFields : List (String × Json) → Nat → String
  | [], _ => ""
  | kv :: fs, lvl =>
      "," ++ nlIndent lvl ++ jsonQuote kv.1 ++ ": " ++ jsonDumpAux kv.2 lvl ++
        jsonDumpFields fs lvl

end

/-- Top-level serialization written to the output file. -/
def jsonDump (data : Json) : String := jsonDumpAux data 0

/-- The filesystem, as a map from paths to file contents. -/
structure World where
  files : List (String × String)

/-- Overwrite-or-create the file at `path` with `content`. -/
def assocPut (path content : String) : List (String × String) → List (String × String)
  | [] => [(path, content)]
  | (q, d) :: rest =>
      if q = path then (path, content) :: rest else (q, d) :: assocPut path content rest

/-- `open(filename, 'w')` followed by a full write: unconditional overwrite. -/
def World.write (w : World) (path content : String) : World :=
  ⟨assocPut path content w.files⟩

/-- First binding of a path in the filesystem association list. -/
def assocGetS (path : String) : List (String × String) → Option String
  | [] => none
  | (q, d) :: rest => if q = path then some d else assocGetS path rest

/-- Contents of the file at `path`, if it exists. -/
def World.read (w : World) (path : String) : Option String :=
  assocGetS path w.files

/-- The output path `{output_dir}/oportunidades_{date:%Y-%m-%d}_p{page}.json`
(`exporta_oportunidades_rdstation.py`, line 78). -/
def savePath (output_dir : String) (date : DateTime) (page : Nat) : String :=
  output_dir ++ "/" ++ "oportunidades_" ++ strftimeDate date ++ "_p" ++ toString page ++ ".json"

/-- `DataExporter.save_deals` (`exporta_oportunidades_rdstation.py`,
lines 73-81): extracts `data.get("deals", [])`; if that is falsy, returns
`None` without touching the filesystem; otherwise dumps the entire original
`data` value to the deterministic path and returns it.  The result pairs the
Python return value (or escaping exception) with the updated filesystem. -/
def save_deals (output_dir : String) (data : Json) (date : DateTime) (page : Nat)
    (w : World) : Except PyExn (Option String) × World :=
  match pyDictGet data "deals" (Json.jarr []) with
  | .error e => (.error e, w)
  | .ok deals =>
    if pyTruthy deals = false then
      (.ok none, w)
    else
      let filename := savePath output_dir date page
      (.ok (some filename), w.write filename (jsonDump data))

/-- The pagination stop check of the primary driver
(`exporta_oportunidades_rdstation.py`, line 113):
`len(data.get("deals", [])) < config.per_page`. -/
def stopCheck (cfg : APIConfig) (data : Json) : Except PyExn Bool :=
  match pyDictGet data "deals" (Json.jarr []) with
  | .error e => .error e
  | .ok deals =>
    match pyLen deals with
    | .error e => .error e
    | .ok n => .ok (decide (n < cfg.per_page))

/-- Observable outcome of one day's inner pagination loop: the pages
requested from the API in order, the pages for which a file was written,
the configuration and filesystem at exit, an escaping exception if any,
and whether the result was truncated by fuel exhaustion. -/
structure DayResult where
  requested : List Nat
  exported : List Nat
  config : APIConfig
  world : World
  error : Option PyExn
  fuelOut : Bool

/-- The primary driver's inner pagination loop for one date
(`exporta_oportunidades_rdstation.py`, lines 99-117), starting at `page`.
`fetch` gives the value `client.fetch_deals(current_date, page)` returns for
each page of this date.  `fuel` bounds the number of iterations modelled;
`fuelOut = true` marks an unfinished run. -/
def innerLoop (fetch : Nat → Option Json) (date : DateTime) (output_dir : String) :
    Nat → Nat → APIConfig → World → DayResult
  | 0, _page, cfg, w => ⟨[], [], cfg, w, none, true⟩
  | fuel + 1, page, cfg, w =>
    match fetch page with
    | none => ⟨[page], [], cfg, w, none, false⟩
    | some data =>
      if pyTruthy data = false then
        ⟨[page], [], cfg, w, none, false⟩
      else
        match save_deals output_dir data date page w with
        | (.error e, w') => ⟨[page], [], cfg, w', some e, false⟩
        | (.ok none, w') => ⟨[page], [], cfg, w', none, false⟩
        | (.ok (some _), w') =>
          match stopCheck cfg data with
          | .error e => ⟨[page], [page], cfg, w', some e, false⟩
          | .ok true => ⟨[page], [page], cfg, w', none, false⟩
          | .ok false =>
            let r := innerLoop fetch date output_dir fuel (page + 1) cfg w'
            ⟨page :: r.requested, page :: r.exported, r.config, r.world, r.error, r.fuelOut⟩

/-- Helper: a run of the inner loop with at least one unit of fuel requests
its starting page first. -/
theorem innerLoop_requested_cons (fetch : Nat → Option Json) (date : DateTime)
    (output_dir : String) (fuel page : Nat) (cfg : APIConfig) (w : World) :
    ∃ rest, (innerLoop fetch date output_dir (fuel + 1) page cfg w).requested
      = page :: rest := by
  rw [innerLoop]
  cases fetch page with
  | none => exact ⟨[], rfl⟩
  | some data =>
    dsimp only
    by_cases ht : pyTruthy data = false
    · rw [if_pos ht]; exact ⟨[], rfl⟩
    · rw [if_neg ht]
      rcases hs : save_deals output_dir data date page w with ⟨res, w'⟩
      rcases res with e | o
      · exact ⟨[], rfl⟩
      · rcases o with _ | p
        · exact ⟨[], rfl⟩
        · rcases hc : stopCheck cfg data with e | b
          · exact ⟨[], rfl⟩
          · rcases b with _ | _
            · exact ⟨(innerLoop fetch date output_dir fuel (page + 1) cfg w').requested, rfl⟩
            · exact ⟨[], rfl⟩

/-- C1: for a successful fetch whose page yields `N` extracted records:
if `N <` the configured page size the inner pagination loop for that date
breaks and never requests `page + 1` (the requested list is exactly
`[page]`); if `N` equals the page size, `page` is incremented and
`page + 1` is requested for the same date before the loop moves on. -/
theorem innerLoop_page_size_stop
    (cfg : APIConfig) (fetch : Nat → Option Json) (date : DateTime)
    (output_dir : String) (fuel page : Nat) (w : World) (data : Json) (ds : List Json)
    (hfetch : fetch page = some data)
    (htruthy : pyTruthy data = true)
    (hdeals : pyDictGet data "deals" (Json.jarr []) = .ok (Json.jarr ds)) :
    (ds.length < cfg.per_page →
      (innerLoop fetch date output_dir (fuel + 1) page cfg w).requested = [page]) ∧
    (ds.length = cfg.per_page → 1 ≤ cfg.per_page →
      ∃ rest, (innerLoop fetch date output_dir (fuel + 2) page cfg w).requested
        = page :: (page + 1) :: rest) := by
  constructor
  · intro hlt
    rw [innerLoop, hfetch]
    dsimp only
    rw [if_neg (by simp [htruthy])]
    cases ds with
    | nil =>
      have hsave : save_deals output_dir data date page w = (.ok none, w) := by
        rw [save_deals, hdeals]; rfl
      rw [hsave]
    | cons d ds' =>
      have hsave : save_deals output_dir data date page w =
          (.ok (some (savePath output_dir date page)),
           w.write (savePath output_dir date page) (jsonDump data)) := by
        rw [save_deals, hdeals]; rfl
      rw [hsave]
      have hstop : stopCheck cfg data = .ok true := by
        rw [stopCheck, hdeals]
        simp only [pyLen, decide_eq_true hlt]
      rw [hstop]
  · intro heq hpos
    have hne : ds ≠ [] := by
      intro hnil; rw [hnil] at heq; simp at heq; omega
    have hsave : ∀ w0 : World, save_deals output_dir data date page w0 =
        (.ok (some (savePath output_dir date page)),
         w0.write (savePath output_dir date page) (jsonDump data)) := by
      intro w0
      rw [save_deals, hdeals]
      have : pyTruthy (Json.jarr ds) = true := by
        cases ds with
        | nil => exact absurd rfl hne
        | cons d ds' => rfl
      dsimp only
      rw [if_neg (by simp [this])]
    rw [show fuel + 2 = (fuel + 1) + 1 by omega, innerLoop, hfetch]
    dsimp only
    rw [if_neg (by simp [htruthy]), hsave w]
    have hstop : stopCheck cfg data = .ok false := by
      rw [stopCheck, hdeals]
      simp only [pyLen, heq]
      simp
    rw [hstop]
    obtain ⟨rest, hrest⟩ := innerLoop_requested_cons fetch date output_dir fuel (page + 1)
      cfg (w.write (savePath output_dir date page) (jsonDump data))
    exact ⟨rest, by rw [List.cons.injEq]; exact ⟨rfl, hrest⟩⟩

/-- Witness for C1: with page size 2, a page of one record stops pagination
at page 1; a page of exactly two records makes the loop request page 2. -/
theorem innerLoop_page_size_stop_witness :
    (innerLoop (fun _ => some (Json.jobj [("deals", Json.jarr [Json.jnum 1])]))
        ⟨2024, 7, 30, 0, 0, 0⟩ "out" 1 1 ⟨"u", "t", 2, 3, 5⟩ ⟨[]⟩).requested = [1] ∧
    ∃ rest,
      (innerLoop (fun _ => some (Json.jobj [("deals", Json.jarr [Json.jnum 1, Json.jnum 2])]))
        ⟨2024, 7, 30, 0, 0, 0⟩ "out" 2 1 ⟨"u", "t", 2, 3, 5⟩ ⟨[]⟩).requested
        = 1 :: 2 :: rest := by
  constructor
  · exact (innerLoop_page_size_stop ⟨"u", "t", 2, 3, 5⟩
      (fun _ => some (Json.jobj [("deals", Json.jarr [Json.jnum 1])]))
      ⟨2024, 7, 30, 0, 0, 0⟩ "out" 0 1 ⟨[]⟩ _ [Json.jnum 1] rfl rfl rfl).1 (by decide)
  · exact (innerLoop_page_size_stop ⟨"u", "t", 2, 3, 5⟩
      (fun _ => some (Json.jobj [("deals", Json.jarr [Json.jnum 1, Json.jnum 2])]))
      ⟨2024, 7, 30, 0, 0, 0⟩ "out" 0 1 ⟨[]⟩ _ [Json.jnum 1, Json.jnum 2] rfl rfl rfl).2
      rfl (by decide)

/-- C4: on a page whose extracted `deals` value is falsy (in particular the
empty record list), `save_deals` performs no filesystem write and returns
the `None` "skipped" sentinel, and the driver's inner loop then stops the
date's pagination with no escaping exception, its filesystem untouched. -/
theorem save_deals_empty_page_skips
    (cfg : APIConfig) (fetch : Nat → Option Json) (date : DateTime)
    (output_dir : String) (fuel page : Nat) (w : World) (data ds : Json)
    (hfetch : fetch page = some data)
    (htruthy : pyTruthy data = true)
    (hdeals : pyDictGet data "deals" (Json.jarr []) = .ok ds)
    (hempty : pyTruthy ds = false) :
    save_deals output_dir data date page w = (.ok none, w) ∧
    innerLoop fetch date output_dir (fuel + 1) page cfg w
      = ⟨[page], [], cfg, w, none, false⟩ := by
  have hsave : save_deals output_dir data date page w = (.ok none, w) := by
    rw [save_deals, hdeals]
    dsimp only
    rw [if_pos hempty]
  refine ⟨hsave, ?_⟩
  rw [innerLoop, hfetch]
  dsimp only
  rw [if_neg (by simp [htruthy]), hsave]

/-- Witness for C4 at the page `{"deals": []}`. -/
theorem save_deals_empty_page_skips_witness :
    save_deals "out" (Json.jobj [("deals", Json.jarr [])]) ⟨2024, 7, 30, 0, 0, 0⟩ 1 ⟨[]⟩
      = (.ok none, ⟨[]⟩) ∧
    innerLoop (fun _ => some (Json.jobj [("deals", Json.jarr [])]))
        ⟨2024, 7, 30, 0, 0, 0⟩ "out" 1 1 ⟨"u", "t", 200, 3, 5⟩ ⟨[]⟩
      = ⟨[1], [], ⟨"u", "t", 200, 3, 5⟩, ⟨[]⟩, none, false⟩ :=
  save_deals_empty_page_skips ⟨"u", "t", 200, 3, 5⟩
    (fun _ => some (Json.jobj [("deals", Json.jarr [])]))
    ⟨2024, 7, 30, 0, 0, 0⟩ "out" 0 1 ⟨[]⟩ _ (Json.jarr []) rfl rfl rfl rfl

/-- C10: a successful fetch returning a falsy JSON body (for example `{}`
or `[]`) makes the driver end the date's pagination at once, without
invoking the exporter, and the resulting day outcome is exactly the one a
fetch failure (`None`) produces: same requested pages, no exported pages,
unchanged filesystem, no error. -/
theorem innerLoop_falsy_body_is_failure
    (cfg : APIConfig) (fetch fetchFail : Nat → Option Json) (date : DateTime)
    (output_dir : String) (fuel page : Nat) (w : World) (data : Json)
    (hfalsy : pyTruthy data = false)
    (hfetch : fetch page = some data)
    (hfail : fetchFail page = none) :
    innerLoop fetch date output_dir (fuel + 1) page cfg w
      = ⟨[page], [], cfg, w, none, false⟩ ∧
    innerLoop fetchFail date output_dir (fuel + 1) page cfg w
      = ⟨[page], [], cfg, w, none, false⟩ := by
  constructor
  · rw [innerLoop, hfetch]
    dsimp only
    rw [if_pos hfalsy]
  · rw [innerLoop, hfail]

/-- Witness for C10 at the empty-object body `{}` against a failing fetch. -/
theorem innerLoop_falsy_body_is_failure_witness :
    innerLoop (fun _ => some (Json.jobj [])) ⟨2024, 7, 30, 0, 0, 0⟩ "out" 1 1
        ⟨"u", "t", 200, 3, 5⟩ ⟨[]⟩
      = ⟨[1], [], ⟨"u", "t", 200, 3, 5⟩, ⟨[]⟩, none, false⟩ ∧
    innerLoop (fun _ => none) ⟨2024, 7, 30, 0, 0, 0⟩ "out" 1 1
        ⟨"u", "t", 200, 3, 5⟩ ⟨[]⟩
      = ⟨[1], [], ⟨"u", "t", 200, 3, 5⟩, ⟨[]⟩, none, false⟩ :=
  innerLoop_falsy_body_is_failure ⟨"u", "t", 200, 3, 5⟩
    (fun _ => some (Json.jobj [])) (fun _ => none)
    ⟨2024, 7, 30, 0, 0, 0⟩ "out" 0 1 ⟨[]⟩ (Json.jobj []) rfl rfl rfl

/-- Helper: the retry loop returns the configuration unchanged. -/
theorem fetchGo_config_unchanged (cfg : APIConfig) (outcomes : Nat → AttemptOutcome) :
    ∀ remaining attempt, (fetchGo cfg outcomes attempt remaining).cfgOut = cfg := by
  intro remaining
  induction remaining with
  | zero => intro attempt; rfl
  | succ r ih =>
    intro attempt
    rw [fetchGo]
    rcases attemptResult (outcomes attempt) with e | body
    · dsimp only
      by_cases hre : e.isRequestException
      · rw [if_pos hre]
        by_cases hlt : attempt < cfg.retry_attempts - 1
        · rw [if_pos hlt]; exact ih (attempt + 1)
        · rw [if_neg hlt]
      · rw [if_neg hre]
    · rfl

/-- Helper: the inner pagination loop returns the configuration unchanged. -/
theorem innerLoop_config_unchanged (fetch : Nat → Option Json) (date : DateTime)
    (output_dir : String) :
    ∀ fuel page cfg w,
      (innerLoop fetch date output_dir fuel page cfg w).config = cfg := by
  intro fuel
  induction fuel with
  | zero => intro page cfg w; rfl
  | succ f ih =>
    intro page cfg w
    rw [innerLoop]
    cases fetch page with
    | none => rfl
    | some data =>
      dsimp only
      by_cases ht : pyTruthy data = false
      · rw [if_pos ht]
      · rw [if_neg ht]
        rcases save_deals output_dir data date page w with ⟨res, w'⟩
        rcases res with e | o
        · rfl
        · rcases o with _ | p
          · rfl
          · rcases stopCheck cfg data with e | b
            · rfl
            · rcases b with _ | _
              · exact ih (page + 1) cfg w'
              · rfl

/-- C9: the configuration (base URL, token, page size, retry count, retry
delay) is read-only: every fetch call and every run of the driver's inner
loop (which performs the export calls) returns with the configuration equal
to its startup value, every field included. -/
theorem config_never_mutated (fetch : Nat → Option Json) (date : DateTime)
    (output_dir : String) (cfg : APIConfig) (outcomes : Nat → AttemptOutcome)
    (fuel page : Nat) (w : World) :
    (fetch_deals cfg outcomes).cfgOut = cfg ∧
    (innerLoop fetch date output_dir fuel page cfg w).config = cfg :=
  ⟨fetchGo_config_unchanged cfg outcomes cfg.retry_attempts 0,
   innerLoop_config_unchanged fetch date output_dir fuel page cfg w⟩

/-- Helper: reading a path right after writing it yields the written bytes,
whatever was there before. -/
theorem read_write_same (w : World) (path content : String) :
    (w.write path content).read path = some content := by
  rcases w with ⟨files⟩
  rw [World.write, World.read]
  dsimp only
  induction files with
  | nil => simp [assocPut, assocGetS]
  | cons kv rest ih =>
    rcases kv with ⟨q, d⟩
    by_cases hq : q = path
    · rw [assocPut]
      simp [if_pos hq, assocGetS]
    · rw [assocPut]
      simp only [if_neg hq, assocGetS, if_neg hq]
      exact ih

/-- C6: for a page with a truthy (non-empty) extracted record list,
`save_deals` writes to the deterministic path
`{output_dir}/oportunidades_{date:%Y-%m-%d}_p{page}.json`, overwriting
whatever the filesystem held there; calling it twice with identical
arguments returns the same path both times and leaves byte-identical
contents (the serialization of the page) after each call, from any
starting filesystem. -/
theorem save_deals_idempotent_overwrite
    (output_dir : String) (data : Json) (date : DateTime) (page : Nat)
    (w : World) (ds : Json)
    (hdeals : pyDictGet data "deals" (Json.jarr []) = .ok ds)
    (htruthy : pyTruthy ds = true) :
    (save_deals output_dir data date page w).1
      = .ok (some (savePath output_dir date page)) ∧
    (save_deals output_dir data date page
        (save_deals output_dir data date page w).2).1
      = .ok (some (savePath output_dir date page)) ∧
    (save_deals output_dir data date page w).2.read (savePath output_dir date page)
      = some (jsonDump data) ∧
    (save_deals output_dir data date page
        (save_deals output_dir data date page w).2).2.read
        (savePath output_dir date page)
      = some (jsonDump data) := by
  have hsave : ∀ w0 : World, save_deals output_dir data date page w0 =
      (.ok (some (savePath output_dir date page)),
       w0.write (savePath output_dir date page) (jsonDump data)) := by
    intro w0
    rw [save_deals, hdeals]
    dsimp only
    rw [if_neg (by simp [htruthy])]
  rw [hsave w, hsave]
  exact ⟨rfl, rfl, read_write_same _ _ _, read_write_same _ _ _⟩

/-- Witness for C6 at a one-record page over an empty filesystem. -/
theorem save_deals_idempotent_overwrite_witness :
    (save_deals "out" (Json.jobj [("deals", Json.jarr [Json.jnum 7])])
        ⟨2024, 7, 1, 0, 0, 0⟩ 1 ⟨[]⟩).1
      = .ok (some (savePath "out" ⟨2024, 7, 1, 0, 0, 0⟩ 1)) ∧
    (save_deals "out" (Json.jobj [("deals", Json.jarr [Json.jnum 7])])
        ⟨2024, 7, 1, 0, 0, 0⟩ 1
        (save_deals "out" (Json.jobj [("deals", Json.jarr [Json.jnum 7])])
          ⟨2024, 7, 1, 0, 0, 0⟩ 1 ⟨[]⟩).2).1
      = .ok (some (savePath "out" ⟨2024, 7, 1, 0, 0, 0⟩ 1)) ∧
    (save_deals "out" (Json.jobj [("deals", Json.jarr [Json.jnum 7])])
        ⟨2024, 7, 1, 0, 0, 0⟩ 1 ⟨[]⟩).2.read (savePath "out" ⟨2024, 7, 1, 0, 0, 0⟩ 1)
      = some (jsonDump (Json.jobj [("deals", Json.jarr [Json.jnum 7])])) ∧
    (save_deals "out" (Json.jobj [("deals", Json.jarr [Json.jnum 7])])
        ⟨2024, 7, 1, 0, 0, 0⟩ 1
        (save_deals "out" (Json.jobj [("deals", Json.jarr [Json.jnum 7])])
          ⟨2024, 7, 1, 0, 0, 0⟩ 1 ⟨[]⟩).2).2.read
        (savePath "out" ⟨2024, 7, 1, 0, 0, 0⟩ 1)
      = some (jsonDump (Json.jobj [("deals", Json.jarr [Json.jnum 7])])) :=
  save_deals_idempotent_overwrite "out"
    (Json.jobj [("deals", Json.jarr [Json.jnum 7])])
    ⟨2024, 7, 1, 0, 0, 0⟩ 1 ⟨[]⟩ (Json.jarr [Json.jnum 7]) rfl rfl

/-- The record-list extraction of the primary Exporter,
`DataExporter.save_deals` line 74: `deals = data.get("deals", [])`
(an attribute access that only dicts support). -/
def exporterExtract (data : Json) : Except PyExn Json :=
  pyDictGet data "deals" (Json.jarr [])

/-- The record-list extraction of the first part_000 variant
(`fetch_deals` line 68 and `main` line 126):
`data if isinstance(data, list) else data.get('deals', [])`. -/
def registrosExtract (data : Json) : Except PyExn Json :=
  match data with
  | .jarr _ => .ok data
  | _ => pyDictGet data "deals" (Json.jarr [])

/-- Counterexample to C2 as stated: under the Exporter's own extraction
(`data.get("deals", [])`), a bare one-record list raises `AttributeError`
while the object shape holding the same record extracts it — the two shapes
do not yield the same extracted list. -/
theorem exporterExtract_bare_list_fails :
    exporterExtract (Json.jarr [Json.jnum 7])
      = .error (.attributeError "object has no attribute get") ∧
    exporterExtract (Json.jobj [("deals", Json.jarr [Json.jnum 7])])
      = .ok (Json.jarr [Json.jnum 7]) :=
  ⟨rfl, rfl⟩

/-- C2 (amended): the isinstance-based extraction of the first part_000
variant treats a bare record list and an object whose `deals` field holds
that list identically, and on the object shape it agrees with the primary
Exporter's extraction; the primary Exporter alone supports only the object
shape. -/
theorem registrosExtract_both_shapes (xs : List Json) (fs : List (String × Json))
    (hfield : assocFind "deals" fs = some (Json.jarr xs)) :
    registrosExtract (Json.jarr xs) = .ok (Json.jarr xs) ∧
    registrosExtract (Json.jobj fs) = .ok (Json.jarr xs) ∧
    exporterExtract (Json.jobj fs) = .ok (Json.jarr xs) := by
  refine ⟨rfl, ?_, ?_⟩ <;>
    simp [registrosExtract, exporterExtract, pyDictGet, hfield]

/-- Witness for C2 (amended) at the one-record list `[7]`. -/
theorem registrosExtract_both_shapes_witness :
    registrosExtract (Json.jarr [Json.jnum 7]) = .ok (Json.jarr [Json.jnum 7]) ∧
    registrosExtract (Json.jobj [("deals", Json.jarr [Json.jnum 7])])
      = .ok (Json.jarr [Json.jnum 7]) ∧
    exporterExtract (Json.jobj [("deals", Json.jarr [Json.jnum 7])])
      = .ok (Json.jarr [Json.jnum 7]) :=
  registrosExtract_both_shapes [Json.jnum 7] [("deals", Json.jarr [Json.jnum 7])] rfl

/-- Set (or insert) a key in an association list, keeping its position. -/
def assocSetJ (key : String) (v : Json) : List (String × Json) → List (String × Json)
  | [] => [(key, v)]
  | (k, u) :: rest =>
      if k = key then (key, v) :: rest else (k, u) :: assocSetJ key v rest

/-- Override a field of a JSON object (any other value is unchanged):
used to vary the `has_more` flag of a response independently of its
record list. -/
def Json.setField : Json → String → Json → Json
  | .jobj fs, key, v => .jobj (assocSetJ key v fs)
  | j, _, _ => j

/-- Helper: setting one key leaves lookups of a different key unchanged. -/
theorem assocFind_assocSetJ_other (key keyW : String) (v : Json)
    (hne : key ≠ keyW) :
    ∀ fs : List (String × Json), assocFind key (assocSetJ keyW v fs) = assocFind key fs := by
  intro fs
  induction fs with
  | nil => simp [assocSetJ, assocFind, hne, Ne.symm hne]
  | cons kv rest ih =>
    rcases kv with ⟨k, u⟩
    by_cases hk : k = keyW
    · subst hk
      simp [assocSetJ, assocFind, hne, Ne.symm hne]
    · simp only [assocSetJ, if_neg hk, assocFind]
      by_cases hkey : k = key
      · simp [hkey]
      · simp [hkey, ih]

/-- The `has_more` pagination decision of the third variant (part_000,
lines 267-273): `if not data.get("has_more", False): break` — the loop
continues to `page + 1` exactly when the flag is truthy. -/
def hasMoreCheck (data : Json) : Except PyExn Bool :=
  match pyDictGet data "has_more" (Json.jbool false) with
  | .error e => .error e
  | .ok v => .ok (pyTruthy v)

/-- `save_deals` of the part_000 variants (lines 89-94 and 227-232):
writes unconditionally, with no emptiness check. -/
def save_deals_v2 (output_dir : String) (data : Json) (date : DateTime) (page : Nat)
    (w : World) : String × World :=
  let filename := savePath output_dir date page
  (filename, w.write filename (jsonDump data))

/-- Observable outcome of one day of the third variant's inner loop. -/
structure DayResultV3 where
  requested : List Nat
  exported : List Nat
  world : World
  error : Option PyExn
  fuelOut : Bool

/-- The third variant's inner pagination loop (part_000, lines 256-273):
fetch, break on falsy data, save unconditionally, then continue solely when
`data.get("has_more", False)` is truthy. -/
def innerLoopV3 (fetch : Nat → Option Json) (date : DateTime) (output_dir : String) :
    Nat → Nat → World → DayResultV3
  | 0, _page, w => ⟨[], [], w, none, true⟩
  | fuel + 1, page, w =>
    match fetch page with
    | none => ⟨[page], [], w, none, false⟩
    | some data =>
      if pyTruthy data = false then
        ⟨[page], [], w, none, false⟩
      else
        let sw := save_deals_v2 output_dir data date page w
        match hasMoreCheck data with
        | .error e => ⟨[page], [page], sw.2, some e, false⟩
        | .ok false => ⟨[page], [page], sw.2, none, false⟩
        | .ok true =>
          let r := innerLoopV3 fetch date output_dir fuel (page + 1) sw.2
          ⟨page :: r.requested, page :: r.exported, r.world, r.error, r.fuelOut⟩

/-- Counterexample to C5 as stated: in the third variant's driver loop the
decision to fetch `page + 1` is determined solely by the `has_more` flag.
On a page of one record (far below the page size 200) with
`has_more: true`, that loop requests page 2, although the primary driver's
record-count stop check says to stop; flipping only the flag flips the
decision. -/
theorem innerLoopV3_flag_sole_authority :
    (innerLoopV3
        (fun p => if p = 1
          then some (Json.jobj [("deals", Json.jarr [Json.jnum 1]),
                               ("has_more", Json.jbool true)])
          else none)
        ⟨2024, 7, 30, 0, 0, 0⟩ "out" 2 1 ⟨[]⟩).requested = [1, 2] ∧
    stopCheck ⟨"u", "t", 200, 3, 5⟩
        (Json.jobj [("deals", Json.jarr [Json.jnum 1]), ("has_more", Json.jbool true)])
      = .ok true ∧
    hasMoreCheck
        (Json.jobj [("deals", Json.jarr [Json.jnum 1]), ("has_more", Json.jbool true)])
      = .ok true ∧
    hasMoreCheck
        ((Json.jobj [("deals", Json.jarr [Json.jnum 1]),
            ("has_more", Json.jbool true)]).setField "has_more" (Json.jbool false))
      = .ok false :=
  ⟨rfl, rfl, rfl, rfl⟩

/-- C5 (amended): in the primary driver
(`exporta_oportunidades_rdstation.py`, line 113) the continuation decision
is the record-count-versus-page-size comparison alone: it is invariant
under any change of a `has_more` flag in the response, and on a page whose
`deals` field holds `N` records it stops exactly when `N <` the page size.
(The superseded third variant in part_000 instead trusts the flag alone,
see the counterexample.) -/
theorem stopCheck_count_not_flag (cfg : APIConfig) (data v : Json) :
    stopCheck cfg (data.setField "has_more" v) = stopCheck cfg data ∧
    (∀ ds : List Json,
      pyDictGet data "deals" (Json.jarr []) = .ok (Json.jarr ds) →
      stopCheck cfg data = .ok (decide (ds.length < cfg.per_page))) := by
  constructor
  · cases data with
    | jobj fs =>
      rw [stopCheck, stopCheck, Json.setField]
      simp only [pyDictGet]
      rw [assocFind_assocSetJ_other "deals" "has_more" v (by decide) fs]
    | jnull => rfl
    | jbool b => rfl
    | jnum n => rfl
    | jstr s => rfl
    | jarr xs => rfl
  · intro ds hds
    rw [stopCheck, hds]
    rfl

/-- Witness for C5 (amended) at a one-record page carrying a truthy flag. -/
theorem stopCheck_count_not_flag_witness :
    stopCheck ⟨"u", "t", 200, 3, 5⟩
        ((Json.jobj [("deals", Json.jarr [Json.jnum 1]),
            ("has_more", Json.jbool true)]).setField "has_more" (Json.jbool false))
      = stopCheck ⟨"u", "t", 200, 3, 5⟩
        (Json.jobj [("deals", Json.jarr [Json.jnum 1]), ("has_more", Json.jbool true)]) ∧
    stopCheck ⟨"u", "t", 200, 3, 5⟩
        (Json.jobj [("deals", Json.jarr [Json.jnum 1]), ("has_more", Json.jbool true)])
      = .ok (decide ((1 : Nat) < 200)) := by
  have h := stopCheck_count_not_flag ⟨"u", "t", 200, 3, 5⟩
    (Json.jobj [("deals", Json.jarr [Json.jnum 1]), ("has_more", Json.jbool true)])
    (Json.jbool false)
  exact ⟨h.1, h.2 [Json.jnum 1] rfl⟩
